import Mathlib

/-!
Shallow embedding of the FinancialDataImporter package
(src/financialdataimporter/importer.py and src/financialdataimporter/sources.py).

The package wraps remote financial-data providers (yfinance, alpha_vantage)
with an on-disk cache: each operation builds a filename from its request
parameters, returns the deserialized file on a hit, and otherwise calls the
remote provider, writes the result to the file and returns it.

Modelling choices:
  * The cache directory is a finite association list from filename to payload
    (`CacheState`).  Serialization round-trips (pandas `to_csv`/`read_csv`,
    `pickle.dump`/`pickle.load`) are abstracted as identity: a file stores the
    value that was written to it.
  * A pandas `DataFrame` of price rows is a list of (date-string, row) pairs;
    the row contents are abstracted to a type parameter `α` since no claim
    depends on the columns.  `DataFrame.empty` is list emptiness.
  * The remote providers are oracles passed in as function-valued structures
    (`YFinance`, `AlphaVantage`); a remote call that raises an exception is
    an `Except.error ()` result of the oracle.
  * Python exceptions raised by the package itself are `Err` values; each
    operation returns its result, the new cache state and a flag recording
    whether a remote call was made (`OpResult`).
  * `datetime.now()` is a `Date` parameter `today`; `start_dt > datetime.now()`
    holds exactly when the start date is strictly after today's date, because
    `strptime` gives `start_dt` the midnight time component.
-/

namespace FDI

/-- Exceptions raised by the package, by cause.  In the Python source all of
these are `ValueError` (or an uncaught provider exception); the spec's error
taxonomy names them `InvalidRange`, `NotFound`, `ProviderError`,
`MissingCredential`, `CorruptEntry`. -/
inductive Err where
  | invalidFormat
  | invalidRange
  | notFound
  | providerError
  | missingCredential
  | corruptEntry
  | invalidExpiration
  deriving DecidableEq

/-- A calendar date, as produced by `datetime.strptime(s, "%Y-%m-%d")`. -/
structure Date where
  year : Nat
  month : Nat
  day : Nat
  deriving DecidableEq

/-- Total order key for dates: `datetime` comparison on dates with equal time
components agrees with lexicographic (year, month, day) comparison. -/
def Date.serial (d : Date) : Nat :=
  d.year * 10000 + d.month * 100 + d.day

def isLeap (y : Nat) : Bool :=
  y % 4 == 0 && (y % 100 != 0 || y % 400 == 0)

def daysInMonth (y m : Nat) : Nat :=
  if m == 2 then (if isLeap y then 29 else 28)
  else if m == 4 || m == 6 || m == 9 || m == 11 then 30
  else 31

/-- Split a character list at every dash, like Python `str.split("-")` acting
on the date strings handed to `strptime`. -/
def splitOnDash : List Char → List (List Char)
  | [] => [[]]
  | c :: cs =>
    match splitOnDash cs with
    | [] => [[c]]
    | g :: gs => if c = '-' then [] :: g :: gs else (c :: g) :: gs

def digitsToNat (cs : List Char) : Nat :=
  cs.foldl (fun n c => 10 * n + (c.toNat - 48)) 0

/-- `datetime.strptime(s, "%Y-%m-%d")`: `%Y` matches exactly four digits,
`%m` and `%d` one or two digits, and the resulting (year, month, day) must be
a real calendar date, otherwise `ValueError` (here `none`). -/
def parseDate (s : String) : Option Date :=
  match splitOnDash s.data with
  | [ys, ms, ds] =>
    if ys.all Char.isDigit && ms.all Char.isDigit && ds.all Char.isDigit
        && ys.length == 4
        && (ms.length == 1 || ms.length == 2)
        && (ds.length == 1 || ds.length == 2) then
      let y := digitsToNat ys
      let m := digitsToNat ms
      let d := digitsToNat ds
      if 1 ≤ m && m ≤ 12 && 1 ≤ d && d ≤ daysInMonth y m then
        some ⟨y, m, d⟩
      else none
    else none
  | _ => none

/-- `YahooFinanceImporter._validate_dates` (importer.py lines 23-43): parse
both dates, reject start after end, reject start in the future.  `today` is
the date of `datetime.now()`. -/
def validate_dates (today : Date) (start_date end_date : String) :
    Except Err Unit :=
  match parseDate start_date, parseDate end_date with
  | some s, some e =>
    if s.serial > e.serial then .error .invalidRange
    else if s.serial > today.serial then .error .invalidRange
    else .ok ()
  | _, _ => .error .invalidFormat

/-- A pandas DataFrame of price rows: date-string index plus a row of values
abstracted to `α`. -/
abbrev DataFrame (α : Type) := List (String × α)

/-- The contents of one cache file.  `.csv` files written by the historical
operations hold a price table; `.pkl` files hold either a pickled
fundamentals dict or a pickled option-chain dict of two tables. -/
inductive Payload (α : Type) where
  | frame (df : DataFrame α)
  | dict (d : List (String × String))
  | chain (calls puts : DataFrame α)
  deriving DecidableEq

/-- The cache directory: an association list from filename to file contents.
Every entry is a regular file. -/
structure CacheState (α : Type) where
  files : List (String × Payload α)
  deriving DecidableEq

/-- `os.path.exists` + deserialize: look a filename up in the directory. -/
def CacheState.lookup (st : CacheState α) (k : String) : Option (Payload α) :=
  st.files.lookup k

/-- Serialize and write a file, overwriting any previous entry of that name. -/
def CacheState.write (st : CacheState α) (k : String) (p : Payload α) :
    CacheState α :=
  ⟨(k, p) :: st.files.filter (fun e => e.1 != k)⟩

/-- The yfinance library, abstracted: each endpoint either returns data or
raises (`Except.error ()`). -/
structure YFinance (α : Type) where
  download : String → String → String → Except Unit (DataFrame α)
  info : String → Except Unit (List (String × String))
  options : String → Except Unit (List String)
  optionChain : String → String → Except Unit (DataFrame α × DataFrame α)

/-- yfinance raises from `Ticker.option_chain(e)` whenever `e` is not one of
the expirations listed by `Ticker.options`. -/
def YFinance.raisesOnUnknownExpiration (yf : YFinance α) : Prop :=
  ∀ t e opts, yf.options t = .ok opts → e ∉ opts →
    yf.optionChain t e = .error ()

/-- The on-disk key built by `YahooFinanceImporter.get_data`
(importer.py line 63): raw interpolation
`f"{ticker}_{start_date}_{end_date}.csv"`. -/
def hist_cache_filename (ticker start_date end_date : String) : String :=
  ticker ++ "_" ++ start_date ++ "_" ++ end_date ++ ".csv"

/-- The result of one operation: its Python return-or-raise outcome, the
cache directory afterwards, and whether a remote provider call was made. -/
structure OpResult (α β : Type) where
  result : β
  state : CacheState α
  remoteCalled : Bool
  deriving DecidableEq

/-- `YahooFinanceImporter.get_data` (importer.py lines 45-89).  Cache check
first; on a miss, `yf.download`; an empty result raises `ValueError` (the
`except` block re-raises it and any download exception); otherwise the data
is written to the cache file and returned.  Note that `_validate_dates` is
never invoked.  A cached file of the wrong kind would fail to parse as the
expected CSV table (`corruptEntry`); the operations themselves never create
one, since their filename suffixes differ. -/
def get_data (yf : YFinance α) (st : CacheState α)
    (ticker start_date end_date : String) :
    OpResult α (Except Err (DataFrame α)) :=
  match st.lookup (hist_cache_filename ticker start_date end_date) with
  | some (.frame df) => ⟨.ok df, st, false⟩
  | some _ => ⟨.error .corruptEntry, st, false⟩
  | none =>
    match yf.download ticker start_date end_date with
    | .error _ => ⟨.error .providerError, st, true⟩
    | .ok df =>
      if df.isEmpty then ⟨.error .notFound, st, true⟩
      else ⟨.ok df,
            st.write (hist_cache_filename ticker start_date end_date)
              (.frame df), true⟩

/-- `YahooFinanceImporter.get_fundamentals` (importer.py lines 91-120).
Cache check first; on a miss, `yf.Ticker(t).info`; on any exception the
handler prints and returns the empty dict `{}` as a normal value. -/
def get_fundamentals (yf : YFinance α) (st : CacheState α) (ticker : String) :
    OpResult α (Except Err (List (String × String))) :=
  match st.lookup (ticker ++ "_fundamentals.pkl") with
  | some (.dict d) => ⟨.ok d, st, false⟩
  | some _ => ⟨.error .corruptEntry, st, false⟩
  | none =>
    match yf.info ticker with
    | .ok f => ⟨.ok f, st.write (ticker ++ "_fundamentals.pkl") (.dict f),
                true⟩
    | .error _ => ⟨.ok [], st, true⟩

/-- `YahooFinanceImporter.get_option_expiration_dates`
(importer.py lines 122-139): always a direct `yf.Ticker(t).options` call,
no cache involvement; on an exception it returns the empty tuple. -/
def get_option_expiration_dates (yf : YFinance α) (st : CacheState α)
    (ticker : String) : OpResult α (List String) :=
  match yf.options ticker with
  | .ok l => ⟨l, st, true⟩
  | .error _ => ⟨[], st, true⟩

/-- `YahooFinanceImporter.get_option_chain` (importer.py lines 142-179).
Cache check first; on a miss, `yf.Ticker(t).option_chain(e)`; the result is
cached and returned, and on any exception the handler prints and returns
`None` (`Except.ok none`) instead of raising. -/
def get_option_chain (yf : YFinance α) (st : CacheState α)
    (ticker expiration_date : String) :
    OpResult α (Except Err (Option (DataFrame α × DataFrame α))) :=
  match st.lookup (ticker ++ "_option_" ++ expiration_date ++ ".pkl") with
  | some (.chain c p) => ⟨.ok (some (c, p)), st, false⟩
  | some _ => ⟨.error .corruptEntry, st, false⟩
  | none =>
    match yf.optionChain ticker expiration_date with
    | .ok (c, p) =>
      ⟨.ok (some (c, p)),
       st.write (ticker ++ "_option_" ++ expiration_date ++ ".pkl")
         (.chain c p), true⟩
    | .error _ => ⟨.ok none, st, true⟩

/-- `YahooFinanceImporter.clear_cache` (importer.py lines 181-195): delete
every regular file in the cache directory and report the count. -/
def clear_cache (st : CacheState α) : CacheState α × Nat :=
  (⟨[]⟩, st.files.length)

/-- The alpha_vantage client library, abstracted.  `getDailyAdjusted t` is
`TimeSeries.get_daily_adjusted(symbol=t, outputsize="full")`: the provider's
full daily history for the ticker, independent of any requested date range.
`overview` is `FundamentalData.get_company_overview`. -/
structure AlphaVantage (α : Type) where
  getDailyAdjusted : String → Except Unit (DataFrame α)
  overview : String → Except Unit (List (String × String))

/-- The on-disk key built by `AlphaVantageSource.get_historical_data`
(sources.py line 129): `f"AV_{ticker}_history.pkl"` — the requested date
range does not appear in the key. -/
def av_hist_cache_filename (ticker _start_date _end_date : String) : String :=
  "AV_" ++ ticker ++ "_history.pkl"

/-- Lexicographic order on character lists by code point: how ISO date
strings compare, agreeing with the order of the dates they denote. -/
def charListLe : List Char → List Char → Bool
  | [], _ => true
  | _ :: _, [] => false
  | a :: as, b :: bs =>
    if a.toNat < b.toNat then true
    else if b.toNat < a.toNat then false
    else charListLe as bs

def strLe (a b : String) : Bool :=
  charListLe a.data b.data

/-- Stable ascending insertion by date index: `DataFrame.sort_index()`. -/
def insertByIndex (r : String × α) : DataFrame α → DataFrame α
  | [] => [r]
  | x :: xs => if strLe r.1 x.1 then r :: x :: xs else x :: insertByIndex r xs

def sort_index (l : DataFrame α) : DataFrame α :=
  l.foldr insertByIndex []

/-- `data.loc[start:end]` on a date index: keep the rows whose date lies in
the inclusive range. -/
def loc_slice (l : DataFrame α) (start_date end_date : String) : DataFrame α :=
  l.filter (fun r => strLe start_date r.1 && strLe r.1 end_date)

/-- `AlphaVantageSource.get_historical_data` (sources.py lines 128-158).
Cache check first on the range-independent key; on a miss the full history is
fetched, sliced to the requested range, sorted, rejected if empty, and the
sliced table is what gets cached. -/
def av_get_historical_data (av : AlphaVantage α) (st : CacheState α)
    (ticker start_date end_date : String) :
    OpResult α (Except Err (DataFrame α)) :=
  match st.lookup (av_hist_cache_filename ticker start_date end_date) with
  | some (.frame df) => ⟨.ok df, st, false⟩
  | some _ => ⟨.error .corruptEntry, st, false⟩
  | none =>
    match av.getDailyAdjusted ticker with
    | .error _ => ⟨.error .providerError, st, true⟩
    | .ok full =>
      let sorted := sort_index (loc_slice full start_date end_date)
      if sorted.isEmpty then ⟨.error .notFound, st, true⟩
      else ⟨.ok sorted,
            st.write (av_hist_cache_filename ticker start_date end_date)
              (.frame sorted), true⟩

/-- `AlphaVantageSource.get_fundamentals` (sources.py lines 160-177): cache
check first; on a miss, the overview endpoint; on any exception the handler
prints and returns the empty dict `{}` as a normal value. -/
def av_get_fundamentals (av : AlphaVantage α) (st : CacheState α)
    (ticker : String) : OpResult α (Except Err (List (String × String))) :=
  match st.lookup ("AV_" ++ ticker ++ "_fundamentals.pkl") with
  | some (.dict d) => ⟨.ok d, st, false⟩
  | some _ => ⟨.error .corruptEntry, st, false⟩
  | none =>
    match av.overview ticker with
    | .ok f => ⟨.ok f,
                st.write ("AV_" ++ ticker ++ "_fundamentals.pkl") (.dict f),
                true⟩
    | .error _ => ⟨.ok [], st, true⟩

/-- `AlphaVantageSource.__init__` (sources.py lines 117-126): a falsy
`api_key` (absent, i.e. `None`, or the empty string) raises `ValueError`
before `os.makedirs` runs; otherwise the key is stored and the cache
directory is created.  The returned `Bool` records whether the cache
directory was touched. -/
def av_init (api_key : Option String) : Except Err String × Bool :=
  match api_key with
  | none => (.error .missingCredential, false)
  | some k => if k = "" then (.error .missingCredential, false)
              else (.ok k, true)

/-! ### Concrete providers used to evaluate the operations -/

/-- A provider whose every remote call raises. -/
def yfFail : YFinance Nat :=
  ⟨fun _ _ _ => .error (), fun _ => .error (), fun _ => .error (),
   fun _ _ => .error ()⟩

/-- A provider whose download returns a fixed table, which lists one option
expiration and whose option-chain endpoint always raises. -/
def yfConst (df : DataFrame Nat) : YFinance Nat :=
  ⟨fun _ _ _ => .ok df, fun _ => .ok [("sector", "tech")],
   fun _ => .ok ["2024-06-21"], fun _ _ => .error ()⟩

/-- An Alpha Vantage client returning a fixed full history and a fixed
company overview. -/
def avConst (full : DataFrame Nat) : AlphaVantage Nat :=
  ⟨fun _ => .ok full, fun _ => .ok [("Sector", "tech")]⟩

/-- An Alpha Vantage client whose every remote call raises. -/
def avFail : AlphaVantage Nat :=
  ⟨fun _ => .error (), fun _ => .error ()⟩

/-- Decidable equality of operation outcomes, for evaluating the model on
concrete inputs. -/
instance decEqExcept [DecidableEq ε] [DecidableEq α] :
    DecidableEq (Except ε α)
  | .error x, .error y =>
    if h : x = y then .isTrue (by rw [h])
    else .isFalse (fun he => h (Except.error.inj he))
  | .error _, .ok _ => .isFalse Except.noConfusion
  | .ok _, .error _ => .isFalse Except.noConfusion
  | .ok x, .ok y =>
    if h : x = y then .isTrue (by rw [h])
    else .isFalse (fun he => h (Except.ok.inj he))

/-! ### Helper lemmas about the cache directory -/

theorem lookup_write_self (st : CacheState α) (k : String) (p : Payload α) :
    (st.write k p).lookup k = some p := by
  simp [CacheState.write, CacheState.lookup, List.lookup]

theorem filter_ne_of_lookup_none (l : List (String × Payload α)) (k : String)
    (h : l.lookup k = none) : l.filter (fun e => e.1 != k) = l := by
  induction l with
  | nil => rfl
  | cons a tl ih =>
    rw [List.lookup] at h
    rcases hk : k == a.1 with _ | _
    · rw [hk] at h
      simp only [List.filter]
      rw [show (a.1 != k) = true by simpa [bne, BEq.comm] using hk]
      rw [ih h]
    · rw [hk] at h
      simp at h

theorem write_length_of_lookup_none (st : CacheState α) (k : String)
    (p : Payload α) (h : st.lookup k = none) :
    (st.write k p).files.length = st.files.length + 1 := by
  simp [CacheState.write, filter_ne_of_lookup_none st.files k h]

/-! ### Claim theorems -/

/-- C10: the option-expiration-dates operation never reads or writes the
cache: every call performs a remote fetch and leaves the cache directory
unchanged. -/
theorem expiration_dates_leave_cache_unchanged (yf : YFinance α)
    (st : CacheState α) (t : String) :
    (get_option_expiration_dates yf st t).state = st ∧
    (get_option_expiration_dates yf st t).remoteCalled = true := by
  unfold get_option_expiration_dates
  cases yf.options t <;> simp

/-- C7: after `clear_cache`, no cache entry survives (every previously
cached key now misses) and repeating a historical-data request always
performs a remote fetch. -/
theorem clear_cache_forces_refetch (yf : YFinance α) (st : CacheState α)
    (k : String) (p : Payload α) (t s e : String)
    (hcached : st.lookup k = some p) :
    (clear_cache st).1.lookup k = none ∧
    (get_data yf (clear_cache st).1 t s e).remoteCalled = true := by
  refine ⟨rfl, ?_⟩
  unfold get_data
  rw [show (clear_cache st).1.lookup (hist_cache_filename t s e) = none
      from rfl]
  cases yf.download t s e with
  | error _ => rfl
  | ok df =>
    by_cases h : df.isEmpty <;> simp [h]

/-- C7 witness: a concrete cached entry is gone after the clear and the
repeated request goes to the provider. -/
theorem clear_cache_forces_refetch_witness :
    (clear_cache (⟨[("AAPL_2024-01-01_2024-01-31.csv", .frame [("2024-01-02", 5)])]⟩ :
        CacheState Nat)).1.lookup "AAPL_2024-01-01_2024-01-31.csv" = none ∧
    (get_data (yfConst [("2024-01-02", 5)])
      (clear_cache (⟨[("AAPL_2024-01-01_2024-01-31.csv", .frame [("2024-01-02", 5)])]⟩ :
        CacheState Nat)).1 "AAPL" "2024-01-01" "2024-01-31").remoteCalled = true :=
  clear_cache_forces_refetch (yfConst [("2024-01-02", 5)])
    ⟨[("AAPL_2024-01-01_2024-01-31.csv", .frame [("2024-01-02", 5)])]⟩
    "AAPL_2024-01-01_2024-01-31.csv" (.frame [("2024-01-02", 5)])
    "AAPL" "2024-01-01" "2024-01-31" rfl

/-- C4: when the provider returns an empty table for an uncached request,
`get_data` raises (`NotFound`), caches nothing and never reports the empty
table as a success. -/
theorem get_data_empty_is_error (yf : YFinance α) (st : CacheState α)
    (t s e : String)
    (hmiss : st.lookup (hist_cache_filename t s e) = none)
    (hempty : yf.download t s e = .ok []) :
    get_data yf st t s e = ⟨.error .notFound, st, true⟩ := by
  unfold get_data
  rw [hmiss, hempty]
  rfl

/-- C4 witness: evaluating the empty-result case at a concrete request. -/
theorem get_data_empty_is_error_witness :
    get_data (yfConst []) ⟨[]⟩ "AAPL" "2024-01-01" "2024-01-31" =
      ⟨.error .notFound, ⟨[]⟩, true⟩ :=
  get_data_empty_is_error (yfConst []) ⟨[]⟩ "AAPL" "2024-01-01" "2024-01-31"
    rfl rfl

/-- C8: constructing the Alpha Vantage adapter with an absent or empty API
key fails (`MissingCredential`) before the cache directory is touched, and
any non-empty key is accepted and stored. -/
theorem av_init_credential (api_key : Option String) :
    ((api_key = none ∨ api_key = some "") →
      av_init api_key = (.error .missingCredential, false)) ∧
    (∀ k, api_key = some k → k ≠ "" → av_init api_key = (.ok k, true)) := by
  constructor
  · rintro (rfl | rfl) <;> rfl
  · rintro k rfl hk
    unfold av_init
    simp [hk]

/-- C2: for a valid, uncached request whose fetch succeeds with non-empty
data, the first `get_data` call fetches remotely, returns the data and adds
exactly one cache entry, and the second identical call returns the same data
from that entry with no remote call and no state change. -/
theorem get_data_cache_hit (yf : YFinance α) (st : CacheState α)
    (t s e : String) (df : DataFrame α) (ds de today : Date)
    (hps : parseDate s = some ds) (hpe : parseDate e = some de)
    (hrange : ds.serial ≤ de.serial) (htoday : de.serial ≤ today.serial)
    (hmiss : st.lookup (hist_cache_filename t s e) = none)
    (hfetch : yf.download t s e = .ok df) (hne : df ≠ []) :
    get_data yf st t s e =
      ⟨.ok df, st.write (hist_cache_filename t s e) (.frame df), true⟩ ∧
    (st.write (hist_cache_filename t s e) (.frame df)).files.length =
      st.files.length + 1 ∧
    get_data yf (st.write (hist_cache_filename t s e) (.frame df)) t s e =
      ⟨.ok df, st.write (hist_cache_filename t s e) (.frame df), false⟩ := by
  have hempty : df.isEmpty = false := by
    cases df
    · exact absurd rfl hne
    · rfl
  refine ⟨?_, write_length_of_lookup_none st _ _ hmiss, ?_⟩
  · unfold get_data
    rw [hmiss, hfetch]
    simp [hempty]
  · unfold get_data
    rw [lookup_write_self]

/-- C2 witness: the second identical call at a concrete request serves the
entry written by the first call, without a remote call. -/
theorem get_data_cache_hit_witness :
    get_data (yfConst [("2024-01-03", 7)])
        (CacheState.write ⟨[]⟩
          (hist_cache_filename "AAPL" "2024-01-02" "2024-01-31")
          (.frame [("2024-01-03", 7)])) "AAPL" "2024-01-02" "2024-01-31" =
      ⟨.ok [("2024-01-03", 7)],
       CacheState.write ⟨[]⟩
         (hist_cache_filename "AAPL" "2024-01-02" "2024-01-31")
         (.frame [("2024-01-03", 7)]), false⟩ :=
  (get_data_cache_hit (yfConst [("2024-01-03", 7)]) ⟨[]⟩ "AAPL" "2024-01-02"
    "2024-01-31" [("2024-01-03", 7)] ⟨2024, 1, 2⟩ ⟨2024, 1, 31⟩ ⟨2024, 6, 1⟩
    (by decide) (by decide) (by decide) (by decide) rfl rfl (by decide)).2.2

/-- C9: the Alpha Vantage historical cache key ignores the requested date
range, so after a successful call for range (s1, e1) a later call for any
range (s2, e2) hits the same entry and returns the (s1, e1)-sliced data with
no remote call and no re-slicing. -/
theorem av_cache_ignores_date_range (av : AlphaVantage α) (st : CacheState α)
    (t s1 e1 s2 e2 : String) (d1 : DataFrame α)
    (hmiss : st.lookup (av_hist_cache_filename t s1 e1) = none)
    (h1 : (av_get_historical_data av st t s1 e1).result = .ok d1) :
    av_hist_cache_filename t s1 e1 = av_hist_cache_filename t s2 e2 ∧
    av_get_historical_data av (av_get_historical_data av st t s1 e1).state
        t s2 e2 =
      ⟨.ok d1, (av_get_historical_data av st t s1 e1).state, false⟩ := by
  refine ⟨rfl, ?_⟩
  rcases hdl : av.getDailyAdjusted t with u | full
  · rw [show av_get_historical_data av st t s1 e1 =
        ⟨.error .providerError, st, true⟩ from by
      unfold av_get_historical_data
      rw [hmiss, hdl]] at h1
    exact absurd h1 (by simp)
  · by_cases hemp : (sort_index (loc_slice full s1 e1)).isEmpty
    · rw [show av_get_historical_data av st t s1 e1 =
          ⟨.error .notFound, st, true⟩ from by
        unfold av_get_historical_data
        rw [hmiss, hdl]
        simp [hemp]] at h1
      exact absurd h1 (by simp)
    · have hfirst : av_get_historical_data av st t s1 e1 =
          ⟨.ok (sort_index (loc_slice full s1 e1)),
           st.write (av_hist_cache_filename t s1 e1)
             (.frame (sort_index (loc_slice full s1 e1))), true⟩ := by
        unfold av_get_historical_data
        rw [hmiss, hdl]
        simp [hemp]
      rw [hfirst] at h1 ⊢
      have hd1 : sort_index (loc_slice full s1 e1) = d1 := by
        have h1' : Except.ok (sort_index (loc_slice full s1 e1)) =
            (Except.ok d1 : Except Err (DataFrame α)) := h1
        injection h1'
      subst hd1
      show av_get_historical_data av
          (st.write (av_hist_cache_filename t s1 e1)
            (.frame (sort_index (loc_slice full s1 e1)))) t s2 e2 = _
      unfold av_get_historical_data
      rw [show (st.write (av_hist_cache_filename t s1 e1)
            (.frame (sort_index (loc_slice full s1 e1)))).lookup
            (av_hist_cache_filename t s2 e2) =
          some (.frame (sort_index (loc_slice full s1 e1))) from
        lookup_write_self st _ _]

/-- C9 witness: the first call caches the January slice; a later call for a
February range returns that same January data without a remote call. -/
theorem av_cache_ignores_date_range_witness :
    av_get_historical_data (avConst [("2024-01-05", 3), ("2024-02-10", 4)])
        (av_get_historical_data (avConst [("2024-01-05", 3), ("2024-02-10", 4)])
          ⟨[]⟩ "IBM" "2024-01-01" "2024-01-31").state
        "IBM" "2024-02-01" "2024-02-28" =
      ⟨.ok [("2024-01-05", 3)],
       (av_get_historical_data (avConst [("2024-01-05", 3), ("2024-02-10", 4)])
         ⟨[]⟩ "IBM" "2024-01-01" "2024-01-31").state, false⟩ :=
  (av_cache_ignores_date_range (avConst [("2024-01-05", 3), ("2024-02-10", 4)])
    ⟨[]⟩ "IBM" "2024-01-01" "2024-01-31" "2024-02-01" "2024-02-28"
    [("2024-01-05", 3)] rfl (by rfl)).2

/-- C8 witness: the two falsy credentials fail and a real key succeeds. -/
theorem av_init_credential_witness :
    av_init none = (.error .missingCredential, false) ∧
    av_init (some "") = (.error .missingCredential, false) ∧
    av_init (some "demo") = (.ok "demo", true) :=
  ⟨(av_init_credential none).1 (Or.inl rfl),
   (av_init_credential (some "")).1 (Or.inr rfl),
   (av_init_credential (some "demo")).2 "demo" rfl (by decide)⟩

/-- C5 counterexample: with every remote call failing and an empty cache,
the fundamentals operation returns the empty mapping as a success instead of
failing with a provider error. -/
theorem get_fundamentals_swallow_counterexample :
    (get_fundamentals yfFail ⟨[]⟩ "AAPL").result = .ok [] ∧
    (get_fundamentals yfFail ⟨[]⟩ "AAPL").result ≠ .error .providerError := by
  exact ⟨rfl, by decide⟩

/-- C5 amended: when the remote call of an uncached fundamentals request
fails, both the Yahoo importer and the Alpha Vantage adapter swallow the
exception and return the empty mapping as a normal value. -/
theorem fundamentals_error_swallowed (yf : YFinance α) (av : AlphaVantage α)
    (st st' : CacheState α) (t : String)
    (hmiss : st.lookup (t ++ "_fundamentals.pkl") = none)
    (hfail : yf.info t = .error ())
    (hmiss2 : st'.lookup ("AV_" ++ t ++ "_fundamentals.pkl") = none)
    (hfail2 : av.overview t = .error ()) :
    get_fundamentals yf st t = ⟨.ok [], st, true⟩ ∧
    av_get_fundamentals av st' t = ⟨.ok [], st', true⟩ := by
  constructor
  · unfold get_fundamentals
    rw [hmiss, hfail]
  · unfold av_get_fundamentals
    rw [hmiss2, hfail2]

/-- C5 witness: the swallowed failure evaluated at a concrete ticker. -/
theorem fundamentals_error_swallowed_witness :
    get_fundamentals yfFail ⟨[]⟩ "MSFT" = ⟨.ok [], ⟨[]⟩, true⟩ ∧
    av_get_fundamentals avFail ⟨[]⟩ "MSFT" = ⟨.ok [], ⟨[]⟩, true⟩ :=
  fundamentals_error_swallowed yfFail avFail ⟨[]⟩ ⟨[]⟩ "MSFT" rfl rfl rfl rfl

/-- C6 counterexample: a provider listing only the expiration 2024-06-21
(so 2024-01-01 is unknown and its chain endpoint raises) makes the
option-chain operation return Python `None` as a normal value, not an
`InvalidExpiration` error. -/
theorem option_chain_none_counterexample :
    (yfConst []).options "AAPL" = .ok ["2024-06-21"] ∧
    ("2024-01-01" ∈ ["2024-06-21"]) = False ∧
    get_option_chain (yfConst []) ⟨[]⟩ "AAPL" "2024-01-01" =
      ⟨.ok none, ⟨[]⟩, true⟩ ∧
    (get_option_chain (yfConst []) ⟨[]⟩ "AAPL" "2024-01-01").result ≠
      .error .invalidExpiration := by
  refine ⟨rfl, by simp, rfl, by decide⟩

/-- C6 amended: for an uncached request whose expiration date is not among
the ticker's known expirations (so the provider call raises), the
option-chain operation returns `None` as a normal value instead of failing
with an `InvalidExpiration` error. -/
theorem option_chain_invalid_expiration_returns_none (yf : YFinance α)
    (st : CacheState α) (t e : String) (opts : List String)
    (hyf : yf.raisesOnUnknownExpiration)
    (hopts : yf.options t = .ok opts) (hnot : e ∉ opts)
    (hmiss : st.lookup (t ++ "_option_" ++ e ++ ".pkl") = none) :
    get_option_chain yf st t e = ⟨.ok none, st, true⟩ := by
  unfold get_option_chain
  rw [hmiss, hyf t e opts hopts hnot]

/-- C6 witness: the amended behavior evaluated at a concrete unknown
expiration date. -/
theorem option_chain_invalid_expiration_returns_none_witness :
    get_option_chain (yfConst []) ⟨[]⟩ "TSLA" "2023-12-15" =
      ⟨.ok none, ⟨[]⟩, true⟩ :=
  option_chain_invalid_expiration_returns_none (yfConst []) ⟨[]⟩ "TSLA"
    "2023-12-15" ["2024-06-21"] (fun _ _ _ _ _ => rfl) rfl (by decide) rfl

/-- C3: the date validator rejects a request with start after end, yet
`get_data` — which never invokes `_validate_dates` — serves that same
request by checking the cache and downloading from the provider, caching
and returning the result instead of raising `InvalidRange` first. -/
theorem get_data_skips_date_validation :
    validate_dates ⟨2024, 6, 1⟩ "2024-02-01" "2024-01-01" =
      .error .invalidRange ∧
    get_data (yfConst [("2024-01-15", 1)]) ⟨[]⟩ "AAPL" "2024-02-01"
        "2024-01-01" =
      ⟨.ok [("2024-01-15", 1)],
       ⟨[("AAPL_2024-02-01_2024-01-01.csv", .frame [("2024-01-15", 1)])]⟩,
       true⟩ := by
  exact ⟨rfl, rfl⟩

/-! ### Injectivity of the Yahoo historical cache key on separator-free
parameters -/

theorem append_sep_inj {c : Char} :
    ∀ {a1 a2 b1 b2 : List Char}, c ∉ a1 → c ∉ a2 →
      a1 ++ c :: b1 = a2 ++ c :: b2 → a1 = a2 ∧ b1 = b2 := by
  intro a1
  induction a1 with
  | nil =>
    intro a2 b1 b2 _ h2 h
    cases a2 with
    | nil => simpa using h
    | cons x xs =>
      simp only [List.nil_append, List.cons_append, List.cons.injEq] at h
      obtain ⟨rfl, -⟩ := h
      exact absurd (List.mem_cons_self c xs) h2
  | cons y ys ih =>
    intro a2 b1 b2 h1 h2 h
    cases a2 with
    | nil =>
      simp only [List.nil_append, List.cons_append, List.cons.injEq] at h
      obtain ⟨rfl, -⟩ := h
      exact absurd (List.mem_cons_self y ys) h1
    | cons x xs =>
      simp only [List.cons_append, List.cons.injEq] at h
      obtain ⟨rfl, h'⟩ := h
      have hr := ih (fun hm => h1 (List.mem_cons_of_mem y hm))
        (fun hm => h2 (List.mem_cons_of_mem y hm)) h'
      exact ⟨by rw [hr.1], hr.2⟩

theorem hist_cache_filename_inj (t1 s1 e1 t2 s2 e2 : String)
    (ht1 : '_' ∉ t1.data) (hs1 : '_' ∉ s1.data)
    (ht2 : '_' ∉ t2.data) (hs2 : '_' ∉ s2.data)
    (h : hist_cache_filename t1 s1 e1 = hist_cache_filename t2 s2 e2) :
    t1 = t2 ∧ s1 = s2 ∧ e1 = e2 := by
  have hd := congrArg String.data h
  have hu : ("_" : String).data = ['_'] := rfl
  simp only [hist_cache_filename, String.data_append, hu,
    List.append_assoc, List.singleton_append] at hd
  obtain ⟨hta, hrest⟩ := append_sep_inj ht1 ht2 hd
  obtain ⟨hsa, hea⟩ := append_sep_inj hs1 hs2 hrest
  refine ⟨?_, ?_, ?_⟩
  · exact String.ext hta
  · exact String.ext hsa
  · exact String.ext (List.append_cancel_right hea)

/-- C1 amended: the Yahoo historical key is a function of the parameters
and distinguishes any two requests whose tickers and start dates contain no
underscore, but it is not injective in general (underscore-bearing
parameters collide), and the Alpha Vantage historical key does not depend
on the requested date range at all. -/
theorem hist_key_builder_spec :
    (∀ t1 s1 e1 t2 s2 e2 : String, '_' ∉ t1.data → '_' ∉ s1.data →
      '_' ∉ t2.data → '_' ∉ s2.data →
      hist_cache_filename t1 s1 e1 = hist_cache_filename t2 s2 e2 →
      t1 = t2 ∧ s1 = s2 ∧ e1 = e2) ∧
    (∀ t s1 e1 s2 e2 : String,
      av_hist_cache_filename t s1 e1 = av_hist_cache_filename t s2 e2) :=
  ⟨hist_cache_filename_inj, fun _ _ _ _ _ => rfl⟩

/-- C1 witness: the key of a concrete underscore-free request determines
its parameters. -/
theorem hist_key_builder_spec_witness :
    ("AAPL" : String) = "AAPL" ∧ ("2024-01-02" : String) = "2024-01-02" ∧
    ("2024-01-31" : String) = "2024-01-31" :=
  hist_key_builder_spec.1 "AAPL" "2024-01-02" "2024-01-31" "AAPL"
    "2024-01-02" "2024-01-31" (by decide) (by decide) (by decide) (by decide)
    rfl

/-- C1 counterexample: two different requests share one Yahoo key because
the underscore separator also occurs in a parameter, and two different date
ranges share one Alpha Vantage key because the key ignores the range. -/
theorem hist_key_not_injective :
    hist_cache_filename "A_B" "C" "D" = hist_cache_filename "A" "B_C" "D" ∧
    ("A_B", "C", "D") ≠ (("A", "B_C", "D") : String × String × String) ∧
    av_hist_cache_filename "IBM" "2024-01-01" "2024-02-01" =
      av_hist_cache_filename "IBM" "2020-05-05" "2020-06-06" ∧
    ("2024-01-01", "2024-02-01") ≠
      (("2020-05-05", "2020-06-06") : String × String) := by
  exact ⟨rfl, by decide, rfl, by decide⟩

end FDI
